import Mathlib

/-!
Verification of the Loom MCP server's API adapter layer.

Shallow embedding of `src/client.ts` and `src/types/env.ts`:

* pure field-mapping code (wire snake_case records to internal camelCase
  records) becomes Lean functions over explicit wire structures — the wire
  structures are transcribed from the TypeScript type annotations that the
  source passes to `request<T>`;
* the HTTP transport is modelled by passing the would-be HTTP response (its
  status, `Retry-After` header, and JSON-parse outcome of its body) as an
  explicit argument; whether `fetch` was invoked is recorded in the result;
* JavaScript truthiness (`||`, `!!`, `cond ? a : b`) is modelled by explicit
  helpers on `Option`/`String`/`Int` values; `Number.parseInt` is modelled by
  `jsParseInt`, whose `none` result models `NaN`;
* JSON numbers are modelled as integers: no claim in scope involves a
  fractional or non-finite numeric value.
-/

namespace Loom

/-- JSON value, the outcome of `JSON.parse` on a response body.  Numbers are
modelled as integers (no claim in scope involves fractional values). -/
inductive Json where
  | null : Json
  | bool : Bool → Json
  | num : Int → Json
  | str : String → Json
  | arr : List Json → Json
  | obj : List (String × Json) → Json

/-- JavaScript truthiness of a JSON value: `null`, `false`, `0` and `""` are
falsy; every array and object (even empty) is truthy. -/
def jsTruthy : Json → Bool
  | .null => false
  | .bool b => b
  | .num n => n != 0
  | .str s => s != ""
  | .arr _ => true
  | .obj _ => true

/-- Property access `j.k` on a parsed JSON value: `none` models `undefined`
(access on a non-object, or a missing key).  `JSON.parse` keeps the last
occurrence of a duplicated key, hence the left fold. -/
def jsonGet : Json → String → Option Json
  | .obj fs, k => fs.foldl (fun acc p => if p.1 = k then some p.2 else acc) none
  | _, _ => none

/-- `a || b` where `a` may be `undefined` (property access result). -/
def jsOrJson (a : Option Json) (b : Json) : Json :=
  match a with
  | some v => if jsTruthy v then v else b
  | none => b

mutual

/-- `String(v)` on a JSON-derived value, as performed by the `Error`
constructor on its message argument: arrays join their elements with commas
(`null` elements become the empty string), objects print as
`[object Object]`. -/
def jsToString : Json → String
  | .null => "null"
  | .bool b => cond b "true" "false"
  | .num n => toString n
  | .str s => s
  | .obj _ => "[object Object]"
  | .arr xs => String.intercalate "," (jsToStringElems xs)

/-- Array elements under `String(...)`: `null` elements print as the empty
string, everything else recursively. -/
def jsToStringElems : List Json → List String
  | [] => []
  | .null :: rest => "" :: jsToStringElems rest
  | e :: rest => jsToString e :: jsToStringElems rest

end

/-- Truthiness of `headers.get(name)` / an optional string field: `null`
(absent) and the empty string are falsy. -/
def jsTruthyStrOpt : Option String → Bool
  | some s => s != ""
  | none => false

/-- Truthiness of an optional JS number: absent, `0` (and `NaN`, which the
typed tool arguments rule out) are falsy. -/
def jsTruthyIntOpt : Option Int → Bool
  | some n => n != 0
  | none => false

/-- Truthiness of an optional JS boolean: only `some true` is truthy. -/
def jsTruthyBoolOpt : Option Bool → Bool
  | some b => b
  | none => false

/-- `s || d` for an optional string value. -/
def jsOrStr (s : Option String) (d : String) : String :=
  match s with
  | some v => if v = "" then d else v
  | none => d

/-- `n || d` for an optional JS number. -/
def jsOrInt (n : Option Int) (d : Int) : Int :=
  match n with
  | some v => if v = 0 then d else v
  | none => d

/-- Whitespace skipped by `Number.parseInt`. -/
def jsWhitespace (c : Char) : Bool :=
  c = ' ' || c = '\t' || c = '\n' || c = '\r' || c = '\x0b' || c = '\x0c'

/-- `Number.parseInt(s, 10)`: skip leading whitespace, read an optional sign,
then the longest prefix of decimal digits; `none` models `NaN` (no digits). -/
def jsParseInt (s : String) : Option Int :=
  let cs := s.data.dropWhile jsWhitespace
  let signAndRest : Int × List Char :=
    match cs with
    | '-' :: rest => (-1, rest)
    | '+' :: rest => (1, rest)
    | _ => (1, cs)
  let ds := signAndRest.2.takeWhile Char.isDigit
  if ds.isEmpty then none
  else some (signAndRest.1 * Int.ofNat (ds.foldl (fun a c => a * 10 + (c.toNat - 48)) 0))

-- =============================================================================
-- Data model (internal camelCase records, from src/client.ts)
-- =============================================================================

/-- Tenant credentials parsed from request headers (src/types/env.ts). -/
structure TenantCredentials where
  accessToken : Option String := none
  baseUrl : Option String := none

structure LoomUser where
  id : String
  email : String
  name : String
  avatarUrl : Option String := none

structure VideoOwner where
  id : String
  name : String
  email : String

structure VideoWorkspaceRef where
  id : String
  name : String

/-- Internal video record.  `status` and `privacy` are kept as strings: the
source casts the wire value without runtime checking, so unknown wire values
pass through uncoerced. -/
structure LoomVideo where
  id : String
  title : String
  description : Option String := none
  status : String
  duration : Option Int := none
  thumbnailUrl : Option String := none
  embedUrl : Option String := none
  shareUrl : Option String := none
  downloadUrl : Option String := none
  viewCount : Option Int := none
  privacy : Option String := none
  createdAt : String
  updatedAt : Option String := none
  owner : Option VideoOwner := none
  workspace : Option VideoWorkspaceRef := none
  folderId : Option String := none

structure LoomTranscriptSegment where
  startTime : Int
  endTime : Int
  text : String

structure LoomTranscript where
  transcript : List LoomTranscriptSegment
  fullText : String

structure LoomFolder where
  id : String
  name : String
  videoCount : Option Int := none
  createdAt : String
  updatedAt : Option String := none
  parentId : Option String := none

structure LoomSpace where
  id : String
  name : String
  description : Option String := none
  memberCount : Option Int := none
  videoCount : Option Int := none
  createdAt : Option String := none

structure PaginatedResponse (T : Type) where
  items : List T
  nextCursor : Option String := none
  hasMore : Bool

/-- Error taxonomy.  Modelled from the spec: the classes `AuthenticationError`,
`RateLimitError` and `LoomApiError` live in `src/utils/errors.ts`, which is not
under `src/`; per spec section 7 each is an `Error` subclass carrying its
constructor arguments, and `Error` coerces its message argument to a string.
`rateLimit`'s `retryAfterSeconds = none` models a `NaN` retry value. -/
inductive LoomError where
  | authentication : String → LoomError
  | rateLimit : String → Option Int → LoomError
  | api : String → Nat → Option String → LoomError

/-- `error.message` of a thrown error (all errors thrown by the adapter are
`Error` instances, so `testConnection`'s `instanceof Error` test succeeds). -/
def errMessage : LoomError → String
  | .authentication m => m
  | .rateLimit m _ => m
  | .api m _ _ => m

-- =============================================================================
-- Credential resolution (src/types/env.ts)
-- =============================================================================

/-- `parseTenantCredentials(request)`: the two arguments are the values of
`headers.get('X-Loom-Access-Token')` and `headers.get('X-Loom-Base-URL')`
(`none` = header absent).  `headers.get(name) || undefined` maps an empty
header value to an absent field. -/
def parseTenantCredentials (accessTokenHeader baseUrlHeader : Option String) :
    TenantCredentials :=
  { accessToken := if jsTruthyStrOpt accessTokenHeader then accessTokenHeader else none
  , baseUrl := if jsTruthyStrOpt baseUrlHeader then baseUrlHeader else none }

/-- `validateCredentials`: throws a plain `Error` when the access token is
absent (or empty, which is equally falsy). -/
def validateCredentials (c : TenantCredentials) : Except String Unit :=
  if jsTruthyStrOpt c.accessToken then .ok ()
  else .error "Missing credentials. Provide X-Loom-Access-Token header."

def API_BASE_URL : String := "https://api.loom.com/v1"

/-- `this.baseUrl = credentials.baseUrl || API_BASE_URL` in the constructor. -/
def clientBaseUrl (c : TenantCredentials) : String :=
  jsOrStr c.baseUrl API_BASE_URL

-- =============================================================================
-- HTTP request helper (LoomClientImpl.getAuthHeaders / LoomClientImpl.request)
-- =============================================================================

/-- A wire HTTP response, as far as the adapter inspects it: the status code,
the `Retry-After` header (`none` = absent), and the outcome of parsing the
body as JSON (`none` = the body text is not valid JSON). -/
structure HttpResponse where
  status : Nat
  retryAfter : Option String := none
  body : Option Json := none

/-- `response.ok`: status in the inclusive range 200–299. -/
def responseOk (status : Nat) : Bool :=
  200 ≤ status && status ≤ 299

/-- `LoomClientImpl.getAuthHeaders`: throws an `AuthenticationError` when the
bound access token is falsy (absent or empty), else returns exactly the
bearer Authorization header and the JSON content-type header. -/
def getAuthHeaders (c : TenantCredentials) : Except LoomError (List (String × String)) :=
  if jsTruthyStrOpt c.accessToken then
    .ok [("Authorization", "Bearer " ++ c.accessToken.getD ""),
         ("Content-Type", "application/json")]
  else
    .error (.authentication "No credentials provided. Include X-Loom-Access-Token header.")

/-- The rate-limit retry value: `retryAfter ? Number.parseInt(retryAfter, 10) : 60`.
The header value is used only when truthy (present and non-empty); a `none`
result models `NaN`. -/
def retryAfterSeconds (h : Option String) : Option Int :=
  if jsTruthyStrOpt h then jsParseInt (h.getD "") else some 60

/-- The generic-error message: start from `API error: <status>`, then (when the
body parsed as JSON) `errorJson.message || errorJson.error || message`. -/
def errorMessage (status : Nat) (body : Option Json) : Json :=
  let fallback := Json.str ("API error: " ++ toString status)
  match body with
  | none => fallback
  | some j => jsOrJson (jsonGet j "message") (jsOrJson (jsonGet j "error") fallback)

/-- A successful `request` outcome: `204 No Content` yields `undefined`,
otherwise the parsed JSON body is returned (a `none` body here models a
success body whose JSON parsing would reject — no claim depends on it). -/
inductive RequestResult where
  | noContent : RequestResult
  | body : Option Json → RequestResult

/-- The response-classification half of `LoomClientImpl.request`, in source
order: 429, then 401/403, then 404, then any other non-2xx, then 204, then
the parsed body. -/
def classifyResponse (resp : HttpResponse) : Except LoomError RequestResult :=
  if resp.status = 429 then
    .error (.rateLimit "Rate limit exceeded" (retryAfterSeconds resp.retryAfter))
  else if resp.status = 401 ∨ resp.status = 403 then
    .error (.authentication "Authentication failed. Check your Loom access token.")
  else if resp.status = 404 then
    .error (.api "Resource not found" 404 (some "NOT_FOUND"))
  else if responseOk resp.status = false then
    .error (.api (jsToString (errorMessage resp.status resp.body)) resp.status none)
  else if resp.status = 204 then
    .ok .noContent
  else
    .ok (.body resp.body)

/-- The headers carried by an issued `fetch` call.  Every operation passes
`options` without a `headers` field, so the merged headers are exactly
`getAuthHeaders()`. -/
structure SentRequest where
  headers : List (String × String)

/-- `LoomClientImpl.request`: `getAuthHeaders()` is evaluated while building
the `fetch` arguments, so a missing token throws before `fetch` runs.  The
first component records the issued network call (`none` = `fetch` was never
invoked). -/
def request (c : TenantCredentials) (resp : HttpResponse) :
    Option SentRequest × Except LoomError RequestResult :=
  match getAuthHeaders c with
  | .error e => (none, .error e)
  | .ok hs => (some ⟨hs⟩, classifyResponse resp)

-- =============================================================================
-- Connection and user (LoomClientImpl.testConnection / getCurrentUser)
-- =============================================================================

structure ConnectionStatus where
  connected : Bool
  message : String

/-- Wire shape of `GET /me`. -/
structure UserWire where
  id : String
  email : String
  name : String
  avatar_url : Option String := none

/-- Field mapping of `LoomClientImpl.getCurrentUser` on the parsed body. -/
def getCurrentUser (d : UserWire) : LoomUser :=
  { id := d.id, email := d.email, name := d.name, avatarUrl := d.avatar_url }

/-- `LoomClientImpl.testConnection`: the argument is the outcome of the
`getCurrentUser()` call.  Every error the adapter throws is an `Error`
instance, so the `instanceof Error` branch always applies on failure. -/
def testConnection (userResult : Except LoomError LoomUser) : ConnectionStatus :=
  match userResult with
  | .ok user => { connected := true, message := "Connected as " ++ user.name }
  | .error e => { connected := false, message := errMessage e }

-- =============================================================================
-- Listing operations: wire shapes and field mappings
-- =============================================================================

/-- Wire video record of `GET /videos` (and `getVideo`). -/
structure VideoWire where
  id : String
  title : String
  description : Option String := none
  status : String
  duration : Option Int := none
  thumbnail_url : Option String := none
  embed_url : Option String := none
  share_url : Option String := none
  download_url : Option String := none
  view_count : Option Int := none
  privacy : Option String := none
  created_at : String
  updated_at : Option String := none
  owner : Option VideoOwner := none
  workspace : Option VideoWorkspaceRef := none
  folder_id : Option String := none

def videoOfWire (v : VideoWire) : LoomVideo :=
  { id := v.id
  , title := v.title
  , description := v.description
  , status := v.status
  , duration := v.duration
  , thumbnailUrl := v.thumbnail_url
  , embedUrl := v.embed_url
  , shareUrl := v.share_url
  , downloadUrl := v.download_url
  , viewCount := v.view_count
  , privacy := v.privacy
  , createdAt := v.created_at
  , updatedAt := v.updated_at
  , owner := v.owner
  , workspace := v.workspace
  , folderId := v.folder_id }

structure ListVideosWire where
  videos : List VideoWire
  next_cursor : Option String := none

/-- Result construction of `LoomClientImpl.listVideos` on the parsed body:
`hasMore: !!data.next_cursor`. -/
def listVideos (d : ListVideosWire) : PaginatedResponse LoomVideo :=
  { items := d.videos.map videoOfWire
  , nextCursor := d.next_cursor
  , hasMore := jsTruthyStrOpt d.next_cursor }

structure FolderWire where
  id : String
  name : String
  video_count : Option Int := none
  created_at : String
  updated_at : Option String := none
  parent_id : Option String := none

def folderOfWire (f : FolderWire) : LoomFolder :=
  { id := f.id
  , name := f.name
  , videoCount := f.video_count
  , createdAt := f.created_at
  , updatedAt := f.updated_at
  , parentId := f.parent_id }

structure ListFoldersWire where
  folders : List FolderWire
  next_cursor : Option String := none

/-- Result construction of `LoomClientImpl.listFolders`. -/
def listFolders (d : ListFoldersWire) : PaginatedResponse LoomFolder :=
  { items := d.folders.map folderOfWire
  , nextCursor := d.next_cursor
  , hasMore := jsTruthyStrOpt d.next_cursor }

structure SpaceWire where
  id : String
  name : String
  description : Option String := none
  member_count : Option Int := none
  video_count : Option Int := none
  created_at : Option String := none

def spaceOfWire (s : SpaceWire) : LoomSpace :=
  { id := s.id
  , name := s.name
  , description := s.description
  , memberCount := s.member_count
  , videoCount := s.video_count
  , createdAt := s.created_at }

structure ListSpacesWire where
  spaces : List SpaceWire
  next_cursor : Option String := none

/-- Result construction of `LoomClientImpl.listSpaces`. -/
def listSpaces (d : ListSpacesWire) : PaginatedResponse LoomSpace :=
  { items := d.spaces.map spaceOfWire
  , nextCursor := d.next_cursor
  , hasMore := jsTruthyStrOpt d.next_cursor }

/-- Wire video record of `GET /spaces/{id}/videos` (a subset of the full
video shape). -/
structure SpaceVideoWire where
  id : String
  title : String
  description : Option String := none
  status : String
  duration : Option Int := none
  thumbnail_url : Option String := none
  share_url : Option String := none
  view_count : Option Int := none
  privacy : Option String := none
  created_at : String

def videoOfSpaceWire (v : SpaceVideoWire) : LoomVideo :=
  { id := v.id
  , title := v.title
  , description := v.description
  , status := v.status
  , duration := v.duration
  , thumbnailUrl := v.thumbnail_url
  , shareUrl := v.share_url
  , viewCount := v.view_count
  , privacy := v.privacy
  , createdAt := v.created_at }

structure ListSpaceVideosWire where
  videos : List SpaceVideoWire
  next_cursor : Option String := none

/-- Result construction of `LoomClientImpl.listSpaceVideos`. -/
def listSpaceVideos (d : ListSpaceVideosWire) : PaginatedResponse LoomVideo :=
  { items := d.videos.map videoOfSpaceWire
  , nextCursor := d.next_cursor
  , hasMore := jsTruthyStrOpt d.next_cursor }

/-- Wire video record of `GET /videos/search` (no `privacy` field). -/
structure SearchVideoWire where
  id : String
  title : String
  description : Option String := none
  status : String
  duration : Option Int := none
  thumbnail_url : Option String := none
  share_url : Option String := none
  view_count : Option Int := none
  created_at : String

def videoOfSearchWire (v : SearchVideoWire) : LoomVideo :=
  { id := v.id
  , title := v.title
  , description := v.description
  , status := v.status
  , duration := v.duration
  , thumbnailUrl := v.thumbnail_url
  , shareUrl := v.share_url
  , viewCount := v.view_count
  , createdAt := v.created_at }

structure SearchVideosWire where
  videos : List SearchVideoWire
  next_cursor : Option String := none

/-- Result construction of `LoomClientImpl.searchVideos`. -/
def searchVideos (d : SearchVideosWire) : PaginatedResponse LoomVideo :=
  { items := d.videos.map videoOfSearchWire
  , nextCursor := d.next_cursor
  , hasMore := jsTruthyStrOpt d.next_cursor }

-- =============================================================================
-- Transcript (LoomClientImpl.getTranscript)
-- =============================================================================

/-- Wire transcript segment of `GET /videos/{id}/transcript`.  The wire shape
declares only the `transcript` array — there is no server-supplied full-text
field for the result to take. -/
structure TranscriptSegmentWire where
  start_time : Int
  end_time : Int
  text : String

/-- `LoomClientImpl.getTranscript` on the parsed body: map the segments and
join their texts with a single space, in order. -/
def getTranscript (segments : List TranscriptSegmentWire) : LoomTranscript :=
  let transcript := segments.map (fun t =>
    ({ startTime := t.start_time, endTime := t.end_time, text := t.text } :
      LoomTranscriptSegment))
  { transcript := transcript
  , fullText := String.intercalate " " (transcript.map (fun t => t.text)) }

-- =============================================================================
-- Embed HTML (LoomClientImpl.getEmbedHtml)
-- =============================================================================

structure EmbedParams where
  width : Option Int := none
  height : Option Int := none
  autoplay : Option Bool := none

/-- `LoomClientImpl.getEmbedHtml` after its `getVideo` call: `videoId` is the
function argument (used for the fallback URL), `video` the fetched record. -/
def getEmbedHtml (videoId : String) (video : LoomVideo) (params : EmbedParams) :
    String :=
  let width := jsOrInt params.width 640
  let height := jsOrInt params.height 360
  let autoplay := if jsTruthyBoolOpt params.autoplay then "?autoplay=1" else ""
  let embedUrl := jsOrStr video.embedUrl ("https://www.loom.com/embed/" ++ videoId)
  "<iframe src=\"" ++ embedUrl ++ autoplay ++ "\" width=\"" ++ toString width ++
    "\" height=\"" ++ toString height ++
    "\" frameborder=\"0\" webkitallowfullscreen mozallowfullscreen allowfullscreen></iframe>"

-- =============================================================================
-- Query-string construction (URLSearchParams model and endpoint builders)
-- =============================================================================

/-- `URLSearchParams.set`: replace the first pair with the given key (dropping
any later duplicates), else append. -/
def spSet (pairs : List (String × String)) (k v : String) : List (String × String) :=
  match pairs with
  | [] => [(k, v)]
  | p :: rest =>
      if p.1 = k then (k, v) :: rest.filter (fun q => ¬(q.1 = k))
      else p :: spSet rest k v

def hexDigit (n : Nat) : Char :=
  if n < 10 then Char.ofNat (48 + n) else Char.ofNat (55 + n)

def percentByte (b : Nat) : String :=
  String.mk ['%', hexDigit (b / 16), hexDigit (b % 16)]

/-- UTF-8 encoding of one code point. -/
def utf8Bytes (c : Char) : List Nat :=
  let n := c.toNat
  if n < 128 then [n]
  else if n < 2048 then [192 + n / 64, 128 + n % 64]
  else if n < 65536 then [224 + n / 4096, 128 + (n / 64) % 64, 128 + n % 64]
  else [240 + n / 262144, 128 + (n / 4096) % 64, 128 + (n / 64) % 64, 128 + n % 64]

/-- Characters `application/x-www-form-urlencoded` serialization leaves as-is. -/
def formUnreserved (c : Char) : Bool :=
  c.isAlpha || c.isDigit || c = '*' || c = '-' || c = '.' || c = '_'

def formEncodeChar (c : Char) : String :=
  if c = ' ' then "+"
  else if formUnreserved c then String.mk [c]
  else String.join ((utf8Bytes c).map percentByte)

def formEncode (s : String) : String :=
  String.join (s.data.map formEncodeChar)

/-- `URLSearchParams.toString`: `k=v` pairs joined by `&`, both sides
form-encoded. -/
def spToString (pairs : List (String × String)) : String :=
  String.intercalate "&" (pairs.map (fun p => formEncode p.1 ++ "=" ++ formEncode p.2))

/-- The optional pagination parameters shared by the listing operations. -/
structure ListParams where
  perPage : Option Int := none
  nextCursor : Option String := none

/-- The two guarded `set` calls shared by every listing operation:
`if (params?.perPage) ...set('per_page', ...)` and
`if (params?.nextCursor) ...set('next_cursor', ...)`, applied in that order
to an accumulator. -/
def addListParams (q : List (String × String)) (p : ListParams) :
    List (String × String) :=
  let q := if jsTruthyIntOpt p.perPage then spSet q "per_page" (toString (p.perPage.getD 0)) else q
  if jsTruthyStrOpt p.nextCursor then spSet q "next_cursor" (p.nextCursor.getD "") else q

/-- Endpoint of `listVideos`: `queryString ? /videos?... : /videos`. -/
def listVideosEndpoint (p : ListParams) : String :=
  let qs := spToString (addListParams [] p)
  if qs = "" then "/videos" else "/videos?" ++ qs

/-- Endpoint of `listFolders`. -/
def listFoldersEndpoint (p : ListParams) : String :=
  let qs := spToString (addListParams [] p)
  if qs = "" then "/folders" else "/folders?" ++ qs

/-- Endpoint of `listSpaces`. -/
def listSpacesEndpoint (p : ListParams) : String :=
  let qs := spToString (addListParams [] p)
  if qs = "" then "/spaces" else "/spaces?" ++ qs

/-- Endpoint of `listSpaceVideos`. -/
def listSpaceVideosEndpoint (spaceId : String) (p : ListParams) : String :=
  let qs := spToString (addListParams [] p)
  if qs = "" then "/spaces/" ++ spaceId ++ "/videos"
  else "/spaces/" ++ spaceId ++ "/videos?" ++ qs

/-- Endpoint of `searchVideos`: `q` is always set first, and the `?` is always
present (the template interpolates the `URLSearchParams`). -/
def searchVideosEndpoint (query : String) (p : ListParams) : String :=
  "/videos/search?" ++ spToString (addListParams (spSet [] "q" query) p)

-- =============================================================================
-- Theorems
-- =============================================================================

/-- An optional string is truthy exactly when it holds a non-empty value. -/
theorem jsTruthyStrOpt_eq_true_iff (o : Option String) :
    jsTruthyStrOpt o = true ↔ ∃ s, o = some s ∧ s ≠ "" := by
  cases o <;> simp [jsTruthyStrOpt]

/-- Claim C1: for every listing operation (listVideos, listFolders, listSpaces,
listSpaceVideos, searchVideos) and every wire response, `hasMore` is true iff
the wire `next_cursor` yields a non-empty `nextCursor`, and `hasMore` is
independent of the items list (never computed from the item count). -/
theorem hasMore_iff_nextCursor_present :
    (∀ d : ListVideosWire,
      ((listVideos d).hasMore = true ↔ ∃ s, (listVideos d).nextCursor = some s ∧ s ≠ ""))
    ∧ (∀ (d : ListVideosWire) (vs : List VideoWire),
      (listVideos { d with videos := vs }).hasMore = (listVideos d).hasMore)
    ∧ (∀ d : ListFoldersWire,
      ((listFolders d).hasMore = true ↔ ∃ s, (listFolders d).nextCursor = some s ∧ s ≠ ""))
    ∧ (∀ (d : ListFoldersWire) (fs : List FolderWire),
      (listFolders { d with folders := fs }).hasMore = (listFolders d).hasMore)
    ∧ (∀ d : ListSpacesWire,
      ((listSpaces d).hasMore = true ↔ ∃ s, (listSpaces d).nextCursor = some s ∧ s ≠ ""))
    ∧ (∀ (d : ListSpacesWire) (ss : List SpaceWire),
      (listSpaces { d with spaces := ss }).hasMore = (listSpaces d).hasMore)
    ∧ (∀ d : ListSpaceVideosWire,
      ((listSpaceVideos d).hasMore = true ↔
        ∃ s, (listSpaceVideos d).nextCursor = some s ∧ s ≠ ""))
    ∧ (∀ (d : ListSpaceVideosWire) (vs : List SpaceVideoWire),
      (listSpaceVideos { d with videos := vs }).hasMore = (listSpaceVideos d).hasMore)
    ∧ (∀ d : SearchVideosWire,
      ((searchVideos d).hasMore = true ↔ ∃ s, (searchVideos d).nextCursor = some s ∧ s ≠ ""))
    ∧ (∀ (d : SearchVideosWire) (vs : List SearchVideoWire),
      (searchVideos { d with videos := vs }).hasMore = (searchVideos d).hasMore) :=
  ⟨fun d => jsTruthyStrOpt_eq_true_iff d.next_cursor, fun _ _ => rfl,
   fun d => jsTruthyStrOpt_eq_true_iff d.next_cursor, fun _ _ => rfl,
   fun d => jsTruthyStrOpt_eq_true_iff d.next_cursor, fun _ _ => rfl,
   fun d => jsTruthyStrOpt_eq_true_iff d.next_cursor, fun _ _ => rfl,
   fun d => jsTruthyStrOpt_eq_true_iff d.next_cursor, fun _ _ => rfl⟩

/-- Claim C2: with an absent or empty access token, any operation's `request`
fails with the `AuthenticationError` and issues no network call (first
component `none`); with a non-empty token, the issued request carries exactly
the `Authorization: Bearer <token>` and `Content-Type: application/json`
headers. -/
theorem request_requires_token (c : TenantCredentials) (resp : HttpResponse) :
    request c resp =
      match c.accessToken with
      | some t =>
          if t = "" then
            (none,
              Except.error (.authentication
                "No credentials provided. Include X-Loom-Access-Token header."))
          else
            (some ⟨[("Authorization", "Bearer " ++ t), ("Content-Type", "application/json")]⟩,
              classifyResponse resp)
      | none =>
          (none,
            Except.error (.authentication
              "No credentials provided. Include X-Loom-Access-Token header.")) := by
  obtain ⟨at_, bu⟩ := c
  cases at_ with
  | none => rfl
  | some t =>
      by_cases ht : t = "" <;>
        simp [request, getAuthHeaders, jsTruthyStrOpt, ht]

/-- Counterexample to claim C3 as stated: a present `Retry-After` header with
the empty-string value is falsy, so the code uses the default 60 rather than
the parsed value (`Number.parseInt("")` is `NaN`, modelled by `none`). -/
theorem retryAfter_present_not_parsed :
    classifyResponse { status := 429, retryAfter := some "", body := none }
        = .error (.rateLimit "Rate limit exceeded" (some 60))
    ∧ jsParseInt "" = none
    ∧ (some 60 : Option Int) ≠ jsParseInt "" :=
  ⟨rfl, rfl, by decide⟩

/-- Claim C3 (amended): a 429 response yields a RateLimit failure whose
retry-after value is parsed (JS `parseInt`) from the `Retry-After` header when
that header is present with a non-empty value, and is 60 when the header is
absent or empty; header value "30" yields 30. -/
theorem rateLimit_retryAfter (resp : HttpResponse) (h429 : resp.status = 429) :
    classifyResponse resp
        = .error (.rateLimit "Rate limit exceeded" (retryAfterSeconds resp.retryAfter))
    ∧ (∀ v, v ≠ "" → retryAfterSeconds (some v) = jsParseInt v)
    ∧ retryAfterSeconds none = some 60
    ∧ retryAfterSeconds (some "") = some 60
    ∧ retryAfterSeconds (some "30") = some 30 := by
  refine ⟨by simp [classifyResponse, h429], ?_, rfl, rfl, rfl⟩
  intro v hv
  simp [retryAfterSeconds, jsTruthyStrOpt, hv]

/-- Witness for C3's amended theorem at a 429 response with `Retry-After: 30`. -/
theorem rateLimit_retryAfter_witness :
    classifyResponse { status := 429, retryAfter := some "30", body := none }
        = .error (.rateLimit "Rate limit exceeded" (some 30))
    ∧ retryAfterSeconds (some "30") = jsParseInt "30" :=
  ⟨((rateLimit_retryAfter { status := 429, retryAfter := some "30", body := none } rfl).1).trans
      (by rfl),
   (rateLimit_retryAfter { status := 429, retryAfter := some "30", body := none } rfl).2.1
      "30" (by decide)⟩

/-- Counterexample to claim C4 as stated: a body whose `message` field is the
empty string is falsy, so the fallback `API error: 500` is used even though
the `message` field is present — refuting both "the message is the body's
`message` field" and the "exactly when" characterization of the fallback. -/
theorem apiError_fallback_despite_message_field :
    classifyResponse
        { status := 500, retryAfter := none, body := some (.obj [("message", .str "")]) }
        = .error (.api "API error: 500" 500 none)
    ∧ jsonGet (.obj [("message", Json.str "")]) "message" = some (.str "")
    ∧ ("API error: 500" : String) ≠ "" :=
  ⟨rfl, rfl, by decide⟩

/-- Claim C4 (amended): a non-2xx response other than 429, 401, 403 and 404
yields a generic API failure carrying the status code; its message is the
JSON body's `message` field when that field is truthy, else the `error` field
when truthy, and the string `API error: <status>` when the body fails to
parse as JSON or neither field holds a truthy value. -/
theorem apiError_message (status : Nat) (body : Option Json)
    (hok : responseOk status = false) (h429 : status ≠ 429) (h401 : status ≠ 401)
    (h403 : status ≠ 403) (h404 : status ≠ 404) (ra : Option String) :
    classifyResponse { status := status, retryAfter := ra, body := body }
        = .error (.api (jsToString (errorMessage status body)) status none)
    ∧ errorMessage status none = .str ("API error: " ++ toString status)
    ∧ (∀ j m, jsonGet j "message" = some m → jsTruthy m = true →
        errorMessage status (some j) = m)
    ∧ (∀ j e, (∀ m, jsonGet j "message" = some m → jsTruthy m = false) →
        jsonGet j "error" = some e → jsTruthy e = true →
        errorMessage status (some j) = e)
    ∧ (∀ j, (∀ m, jsonGet j "message" = some m → jsTruthy m = false) →
        (∀ e, jsonGet j "error" = some e → jsTruthy e = false) →
        errorMessage status (some j) = .str ("API error: " ++ toString status)) := by
  refine ⟨by simp [classifyResponse, hok, h429, h401, h403, h404], rfl, ?_, ?_, ?_⟩
  · intro j m hm htr
    simp [errorMessage, jsOrJson, hm, htr]
  · intro j e hm he htr
    cases hj : jsonGet j "message" with
    | none => simp [errorMessage, jsOrJson, hj, he, htr]
    | some m => simp [errorMessage, jsOrJson, hj, hm m hj, he, htr]
  · intro j hm he
    cases hj : jsonGet j "message" with
    | none =>
        cases hje : jsonGet j "error" with
        | none => simp [errorMessage, jsOrJson, hj, hje]
        | some e => simp [errorMessage, jsOrJson, hj, hje, he e hje]
    | some m =>
        cases hje : jsonGet j "error" with
        | none => simp [errorMessage, jsOrJson, hj, hje, hm m hj]
        | some e => simp [errorMessage, jsOrJson, hj, hje, hm m hj, he e hje]

/-- Witness for C4's amended theorem at a 500 response whose body holds a
truthy `message` field. -/
theorem apiError_message_witness :
    classifyResponse
        { status := 500, retryAfter := none, body := some (.obj [("message", Json.str "Boom")]) }
        = .error (.api "Boom" 500 none)
    ∧ errorMessage 500 (some (.obj [("message", Json.str "Boom")])) = Json.str "Boom" := by
  have h := apiError_message 500 (some (.obj [("message", Json.str "Boom")]))
    (by decide) (by decide) (by decide) (by decide) (by decide) none
  exact ⟨h.1.trans (by rfl), h.2.2.1 _ _ rfl rfl⟩

/-- Claim C5: `getTranscript`'s `fullText` is the segment texts joined by a
single space in segment order, computed from the segments alone (the wire
shape declares no server-side full-text field); segments "Hello" and "world"
yield exactly "Hello world". -/
theorem getTranscript_fullText_join (segments : List TranscriptSegmentWire) :
    (getTranscript segments).fullText
        = String.intercalate " " (segments.map (fun t => t.text))
    ∧ (getTranscript segments).transcript.map (fun t => t.text)
        = segments.map (fun t => t.text)
    ∧ getTranscript [⟨0, 2, "Hello"⟩, ⟨2, 5, "world"⟩]
        = ⟨[⟨0, 2, "Hello"⟩, ⟨2, 5, "world"⟩], "Hello world"⟩ := by
  refine ⟨?_, ?_, rfl⟩ <;> simp [getTranscript, List.map_map, Function.comp_def]

/-- Claim C6: `getEmbedHtml` returns an iframe whose src is the video's embed
URL when truthy, else `https://www.loom.com/embed/<videoId>`, with
`?autoplay=1` appended iff the autoplay flag is true, and width/height equal
to the given values (the defaults 640 and 360 applying to an absent — or
falsy zero — value); the claim's concrete instance for id "abc123", width
800, height 450, autoplay true, and no embed URL is computed exactly. -/
theorem getEmbedHtml_spec :
    (∀ (videoId : String) (video : LoomVideo) (w hgt : Option Int) (a : Option Bool),
      getEmbedHtml videoId video { width := w, height := hgt, autoplay := a } =
        "<iframe src=\"" ++
          (match video.embedUrl with
           | some u => if u = "" then "https://www.loom.com/embed/" ++ videoId else u
           | none => "https://www.loom.com/embed/" ++ videoId) ++
          (if a = some true then "?autoplay=1" else "") ++
          "\" width=\"" ++
          toString (match w with
            | some x => if x = 0 then (640 : Int) else x
            | none => (640 : Int)) ++
          "\" height=\"" ++
          toString (match hgt with
            | some x => if x = 0 then (360 : Int) else x
            | none => (360 : Int)) ++
          "\" frameborder=\"0\" webkitallowfullscreen mozallowfullscreen allowfullscreen></iframe>")
    ∧ getEmbedHtml "abc123"
        { id := "abc123", title := "Example", status := "ready", createdAt := "2024-01-01" }
        { width := some 800, height := some 450, autoplay := some true } =
        "<iframe src=\"https://www.loom.com/embed/abc123?autoplay=1\" width=\"800\" height=\"450\" frameborder=\"0\" webkitallowfullscreen mozallowfullscreen allowfullscreen></iframe>" := by
  refine ⟨?_, rfl⟩
  intro videoId video w hgt a
  obtain ⟨i, t, de, st, du, th, em, sh, dl, vc, pr, ca, ua, ow, ws, fo⟩ := video
  cases em <;> cases w <;> cases hgt <;> rcases a with _ | b <;>
    first
      | rfl
      | (cases b <;> rfl)

/-- Claim C7: `testConnection` never propagates a failure: user-lookup success
yields connected true with a message containing the user's display name;
any user-lookup failure yields connected false carrying the failure's message
text. -/
theorem testConnection_total :
    (∀ u, testConnection (.ok u)
        = { connected := true, message := "Connected as " ++ u.name })
    ∧ (∀ e, testConnection (.error e) = { connected := false, message := errMessage e })
    ∧ (∀ u : LoomUser, ∃ pre post,
        ("Connected as " ++ u.name).data = pre ++ u.name.data ++ post) := by
  refine ⟨fun u => rfl, fun e => rfl, fun u => ⟨"Connected as ".data, [], ?_⟩⟩
  simp

/-- Claim C8: a present-but-empty `X-Loom-Access-Token` header (or base-URL
header) is parsed identically to an absent one, so validation and every
adapter operation fail with the same Authentication error as when the header
is missing entirely. -/
theorem emptyTokenHeader_eq_absent :
    (∀ b, parseTenantCredentials (some "") b = parseTenantCredentials none b)
    ∧ (∀ a, parseTenantCredentials a (some "") = parseTenantCredentials a none)
    ∧ (∀ b, (parseTenantCredentials (some "") b).accessToken = none)
    ∧ (∀ b, validateCredentials (parseTenantCredentials (some "") b)
        = .error "Missing credentials. Provide X-Loom-Access-Token header.")
    ∧ (∀ b resp, request (parseTenantCredentials (some "") b) resp
        = (none,
            .error (.authentication
              "No credentials provided. Include X-Loom-Access-Token header.")))
    ∧ (∀ b resp, request (parseTenantCredentials (some "") b) resp
        = request (parseTenantCredentials none b) resp) :=
  ⟨fun _ => rfl, fun _ => rfl, fun _ => rfl, fun _ => rfl,
   fun _ _ => rfl, fun _ _ => rfl⟩

/-- Claim C9: for every listing operation a falsy pagination parameter is
omitted from the query string entirely: `nextCursor = ""` (or `perPage = 0`)
produces exactly the same request URL as passing no parameter at all. -/
theorem falsy_pagination_params_omitted :
    (∀ pp, listVideosEndpoint { perPage := pp, nextCursor := some "" }
        = listVideosEndpoint { perPage := pp, nextCursor := none })
    ∧ (∀ nc, listVideosEndpoint { perPage := some 0, nextCursor := nc }
        = listVideosEndpoint { perPage := none, nextCursor := nc })
    ∧ (∀ pp, listFoldersEndpoint { perPage := pp, nextCursor := some "" }
        = listFoldersEndpoint { perPage := pp, nextCursor := none })
    ∧ (∀ nc, listFoldersEndpoint { perPage := some 0, nextCursor := nc }
        = listFoldersEndpoint { perPage := none, nextCursor := nc })
    ∧ (∀ pp, listSpacesEndpoint { perPage := pp, nextCursor := some "" }
        = listSpacesEndpoint { perPage := pp, nextCursor := none })
    ∧ (∀ nc, listSpacesEndpoint { perPage := some 0, nextCursor := nc }
        = listSpacesEndpoint { perPage := none, nextCursor := nc })
    ∧ (∀ sid pp, listSpaceVideosEndpoint sid { perPage := pp, nextCursor := some "" }
        = listSpaceVideosEndpoint sid { perPage := pp, nextCursor := none })
    ∧ (∀ sid nc, listSpaceVideosEndpoint sid { perPage := some 0, nextCursor := nc }
        = listSpaceVideosEndpoint sid { perPage := none, nextCursor := nc })
    ∧ (∀ q pp, searchVideosEndpoint q { perPage := pp, nextCursor := some "" }
        = searchVideosEndpoint q { perPage := pp, nextCursor := none })
    ∧ (∀ q nc, searchVideosEndpoint q { perPage := some 0, nextCursor := nc }
        = searchVideosEndpoint q { perPage := none, nextCursor := nc }) :=
  ⟨fun _ => rfl, fun _ => rfl, fun _ => rfl, fun _ => rfl, fun _ => rfl,
   fun _ => rfl, fun _ _ => rfl, fun _ _ => rfl, fun _ _ => rfl, fun _ _ => rfl⟩

/-- Counterexample to claim C10 as stated: the empty string is not a parseable
integer (`Number.parseInt("")` is `NaN`), yet a present `Retry-After` header
with that value yields the default 60, not `NaN` — so the default does not
apply only when the header is absent. -/
theorem retryAfter_empty_gets_default :
    retryAfterSeconds (some "") = some 60
    ∧ jsParseInt "" = none
    ∧ classifyResponse { status := 429, retryAfter := some "", body := some (.obj []) }
        = .error (.rateLimit "Rate limit exceeded" (some 60))
    ∧ retryAfterSeconds (some "") ≠ jsParseInt "" :=
  ⟨rfl, rfl, rfl, by decide⟩

/-- Claim C10 (amended): when a 429 response carries a non-empty `Retry-After`
value that is not a parseable integer (e.g. "abc"), the RateLimit retry value
is `NaN` (the `Number.parseInt` result), not the documented default; the
default 60 applies when the header is absent or its value is empty. -/
theorem unparseable_retryAfter_nan (v : String) (hv : v ≠ "")
    (hp : jsParseInt v = none) (b : Option Json) :
    classifyResponse { status := 429, retryAfter := some v, body := b }
        = .error (.rateLimit "Rate limit exceeded" none)
    ∧ retryAfterSeconds (some v) = none
    ∧ retryAfterSeconds none = some 60
    ∧ retryAfterSeconds (some "") = some 60 := by
  have hval : retryAfterSeconds (some v) = none := by
    simp [retryAfterSeconds, jsTruthyStrOpt, hv, hp]
  refine ⟨?_, hval, rfl, rfl⟩
  simp [classifyResponse, hval]

/-- Witness for C10's amended theorem at `Retry-After: abc`. -/
theorem unparseable_retryAfter_nan_witness :
    classifyResponse { status := 429, retryAfter := some "abc", body := none }
        = .error (.rateLimit "Rate limit exceeded" none) :=
  (unparseable_retryAfter_nan "abc" (by decide) rfl none).1

end Loom
